import Mathlib

/-!
Shallow embedding of `ie_serving/server/rest_service.py` (OpenVINO model
server REST frontend): the three falcon handlers `GetModelStatus.on_get`,
`GetModelMetadata.on_get` and `Predict.on_post`, together with the data they
consult.  Helper functions imported by that file from modules that are not
part of the sources (`service_utils`, `rest_msg_validation`,
`rest_msg_processing`, `constants`, the `infer` method of the engine) are
modelled from
the specification; each such definition carries a doc comment starting with
`Modelled from the spec:`.

The handlers are embedded as pure functions returning the exit of the handler
(the falcon response it set, or the exception it let propagate) together
with a trace of the externally visible events it performed, in order:
the availability check, `in_use.acquire()`, the `infer` call,
`in_use.release()`, metadata reads and response serialization.
-/

namespace RestService

/-- A parsed JSON request/response value.  The handlers only ever test
whether the parsed body is a dict (`type(body) is not dict`, line 132) and
which top-level keys the dict has; they never recurse into the values, so
values are kept as opaque leaves: a string (used for error messages) or an
opaque tensor payload. -/
inductive JVal where
  | jstr (s : String)
  | jpayload (tensors : List (String × Int))
deriving DecidableEq

/-- A parsed JSON document as `req.media` delivers it: either a dict with
its top-level fields, or any non-dict value (list, string, number, ...),
remembered only by a tag since the handler rejects it without looking
inside. -/
inductive Body where
  | nondict (tag : String)
  | dict (fields : List (String × JVal))
deriving DecidableEq

/-- `type(body) is dict` (rest_service.py line 132). -/
def isDict : Body → Bool
  | .dict _ => true
  | .nondict _ => false

def containsKey : List (String × JVal) → String → Bool
  | [], _ => false
  | (k, _) :: rest, key => k == key || containsKey rest key

/-- The `requested_version` argument of every handler: falcon passes the
URL path segment as a string, and the route without a version segment
leaves the Python default `0` (an int). -/
inductive ReqVer where
  | intV (n : Nat)
  | strV (s : String)
deriving DecidableEq

def parseNatAux : List Char → Nat → Option Nat
  | [], acc => some acc
  | c :: cs, acc =>
    if c.isDigit then parseNatAux cs (acc * 10 + (c.toNat - 48)) else none

/-- Parse a nonempty all-digit string as a natural number, as Python
`int(...)` does on the version strings the routes carry. -/
def pyParseNat (s : String) : Option Nat :=
  match s.data with
  | [] => none
  | c :: cs => parseNatAux (c :: cs) 0

/-- Python `int(requested_version)`: the int itself, or the parsed digits
of the path string (`none` when the string does not parse, in which case
the Python code would raise `ValueError`). -/
def pyToInt : ReqVer → Option Nat
  | .intV n => some n
  | .strV s => pyParseNat s

/-- Python `str.format` interpolation of `requested_version` into the
`WRONG_MODEL_SPEC` template. -/
def pyStr : ReqVer → String
  | .intV n => toString n
  | .strV s => s

/-- Version lifecycle states (spec section 3; `ModelVersionState` in the
tests of the sources). -/
inductive VersionState where
  | DISCOVERED
  | LOADING
  | AVAILABLE
  | UNLOADING
  | END
  | FAILED
deriving DecidableEq

/-- One entry of the `versions_statuses` map of a model: the record that
`add_status_to_response` copies into a `GetModelStatusResponse`
(fields `version`, `state`, `status.error_code`, `status.error_message`,
exactly the fields the tests of the sources read). -/
structure VersionStatus where
  version : Nat
  state : VersionState
  error_code : Nat
  error_message : String
deriving DecidableEq

/-- The loaded-engine attributes that `rest_service.py` reads:
`input_key_names` (line 137) and the outputs entry of `model_keys`
(line 187).
The metadata descriptors and the `infer` behaviour belong to the external
inference runtime and are supplied separately. -/
structure Engine where
  input_key_names : List String
  model_keys_outputs : List (String × String)
deriving DecidableEq, Inhabited

/-- One model as the handlers see it: `versions_statuses` (all version
records) and `engines` (the loaded engines). -/
structure TfModel where
  versions_statuses : List (Nat × VersionStatus)
  engines : List (Nat × Engine)
deriving DecidableEq

/-- `self.models`: the name-indexed model map. -/
abbrev Models := List (String × TfModel)

def alookup {α β : Type} [DecidableEq α] : List (α × β) → α → Option β
  | [], _ => none
  | (k, v) :: rest, key => if k = key then some v else alookup rest key

/-- The versions of a model whose record is in state AVAILABLE. -/
def availableVersions (m : TfModel) : List Nat :=
  (m.versions_statuses.filter
    (fun p => p.2.state == VersionState.AVAILABLE)).map Prod.fst

/-- The numerically largest AVAILABLE version, if any. -/
def largestAvailable (m : TfModel) : Option Nat :=
  match availableVersions m with
  | [] => none
  | v :: vs => some (vs.foldl Nat.max v)

/-- Modelled from the spec: the resolution step of
`check_availability_of_requested_model` from
`ie_serving.server.service_utils` (module not among the sources).
Spec section 4.5 (`resolve`): return the resolved version, or `none`
(NOT_FOUND) when the model name is unknown or no AVAILABLE version
matches the request; a requested version of 0 means LATEST, which picks
the numerically largest AVAILABLE version. -/
def resolveVersion (models : Models) (model_name : String)
    (requested_version : ReqVer) : Option Nat :=
  match alookup models model_name with
  | none => none
  | some m =>
    match pyToInt requested_version with
    | none => none
    | some v =>
      if v = 0 then largestAvailable m
      else if (availableVersions m).contains v then some v
      else none

/-- Modelled from the spec: `check_availability_of_requested_model` from
`ie_serving.server.service_utils` (module not among the sources).
Returns the pair `(valid_model_spec, version)` that the handlers unpack:
`(True, version)` when `resolveVersion` succeeds and `(False, 0)` when it
does not. -/
def check_availability_of_requested_model (models : Models)
    (model_name : String) (requested_version : ReqVer) : Bool × Nat :=
  match resolveVersion models model_name requested_version with
  | none => (false, 0)
  | some v => (true, v)

/-- Modelled from the spec: `check_availability_of_requested_status` from
`ie_serving.server.service_utils` (module not among the sources).
Spec section 4.7: GetModelStatus fails with NOT_FOUND iff the model name
is unknown or the specific version has no record; a requested version of
0 means no specific version was requested. -/
def check_availability_of_requested_status (models : Models)
    (requested_version : ReqVer) (model_name : String) : Bool :=
  match alookup models model_name with
  | none => false
  | some m =>
    match pyToInt requested_version with
    | none => false
    | some v => v == 0 || (alookup m.versions_statuses v).isSome

/-- The input-format discriminator values from
`ie_serving.server.constants` (module not among the sources). -/
inductive InputFormat where
  | rowFormat
  | columnFormat
  | invalidFormat
deriving DecidableEq

def INVALID_FORMAT : InputFormat := InputFormat.invalidFormat

/-- Modelled from the spec: `get_input_format` from
`ie_serving.server.rest_msg_validation` (module not among the sources).
Spec section 6: the two recognized Predict input formats are
distinguished by inspection of the request body — row format is
`instances` at top level, column format is `inputs`; anything else is
invalid.  The `input_key_names` argument is kept to mirror the call at
rest_service.py line 136. -/
def get_input_format (body : Body) (_input_key_names : List String) :
    InputFormat :=
  match body with
  | .dict fields =>
    if containsKey fields "instances" then InputFormat.rowFormat
    else if containsKey fields "inputs" then InputFormat.columnFormat
    else InputFormat.invalidFormat
  | .nondict _ => InputFormat.invalidFormat

/-- Modelled from the spec: the `OUTPUT_REPRESENTATION` table from
`ie_serving.server.constants` (module not among the sources).
Spec section 6: the response mirrors the input format — `predictions`
for row inputs, `outputs` for column inputs. -/
def OUTPUT_REPRESENTATION : InputFormat → String
  | InputFormat.rowFormat => "predictions"
  | InputFormat.columnFormat => "outputs"
  | InputFormat.invalidFormat => "invalid"

/-- Modelled from the spec: `prepare_json_response` from
`ie_serving.server.rest_msg_processing` (module not among the sources).
It wraps the (client-named) inference outputs under the single top-level
key given by the OUTPUT_REPRESENTATION of the input format. -/
def prepare_json_response (output_key : String)
    (inference_output : List (String × Int))
    (_model_keys_outputs : List (String × String)) : Body :=
  Body.dict [(output_key, JVal.jpayload inference_output)]

/-- Outcome of `prepare_input_data` (from
`ie_serving.server.predict_utils`, module not among the sources), as the
handler unpacks it at rest_service.py line 148:
`(occurred_problem, inference_input, batch_size, code)` — on a problem the
`inference_input` slot carries the error message and `code` the HTTP
status to set; otherwise the deserialized tensors and batch size. -/
inductive PrepareOutcome where
  | problem (errMsg : String) (code : String)
  | ok (batch_size : Nat)
deriving DecidableEq

/-- Modelled from the spec: the behaviour of the external inference
runtime call `engine.infer(inference_input, batch_size)` (spec sections
4.3 and 9): it returns named output tensors, or fails with INVALID_INPUT
(which reaches the handler as a Python `ValueError`, the only exception
class line 168 catches), or fails with INTERNAL (any other exception
class, named by its tag here). -/
inductive InferOutcome where
  | ok (output : List (String × Int))
  | valueError (msg : String)
  | otherError (exc : String)
deriving DecidableEq

/-- Externally visible events a handler performs, in program order. -/
inductive Event where
  | resolve
  | acquire (model : String) (version : Nat)
  | inferCall (model : String) (version : Nat)
  | release (model : String) (version : Nat)
  | readMetadata
  | serialize
deriving DecidableEq

def isAcquire : Event → Bool
  | .acquire _ _ => true
  | _ => false

def isRelease : Event → Bool
  | .release _ _ => true
  | _ => false

def isInferCall : Event → Bool
  | .inferCall _ _ => true
  | _ => false

def acquireCount (tr : List Event) : Nat := (tr.filter isAcquire).length

def releaseCount (tr : List Event) : Nat := (tr.filter isRelease).length

def inferCallCount (tr : List Event) : Nat :=
  (tr.filter isInferCall).length

/-- Effect of a trace on the in-use counter of the engine. -/
def applyTrace (c : Int) : List Event → Int
  | [] => c
  | .acquire _ _ :: tr => applyTrace (c + 1) tr
  | .release _ _ :: tr => applyTrace (c - 1) tr
  | _ :: tr => applyTrace c tr

/-- The metadata response fields the tests of the sources read:
the keys of the packed `SignatureDefMap`, `model_spec.name` and
`model_spec.version.value`. -/
structure MetadataMsg where
  signature_def_keys : List String
  model_spec_name : String
  model_spec_version : Nat
deriving DecidableEq

/-- The serialized falcon response body: `json.dumps` of a dict, or
`MessageToJson` of a status/metadata protobuf, kept structurally. -/
inductive RespBody where
  | jsonBody (j : Body)
  | statusBody (entries : List VersionStatus)
  | metadataBody (m : MetadataMsg)
deriving DecidableEq

/-- How a handler invocation ends: a set falcon response
(status line, body), or a propagated Python exception. -/
inductive PExit where
  | done (status : String) (body : RespBody)
  | raised (exc : String)
deriving DecidableEq

namespace falcon

def HTTP_200 : String := "200 OK"

def HTTP_400 : String := "400 Bad Request"

def HTTP_NOT_FOUND : String := "404 Not Found"

end falcon

/-- The body all three handlers build on a failed availability check:
`json.dumps` of a dict with the single key `error` holding the formatted
WRONG_MODEL_SPEC template; built on a failed
availability check.  The `WRONG_MODEL_SPEC` template string lives in
`ie_serving.server.constants` (module not among the sources), so the
handlers are parameterized by it (`wms`). -/
def wrongSpecBody (wms : String → String → String) (model_name : String)
    (requested_version : ReqVer) : RespBody :=
  RespBody.jsonBody
    (Body.dict [("error", JVal.jstr (wms model_name (pyStr requested_version)))])

namespace GetModelStatus

/-- The response computed by `GetModelStatus.on_get` (rest_service.py
lines 30-61): 404 with the WRONG_MODEL_SPEC body when the availability
check fails; otherwise, after `requested_version = int(requested_version)`
(line 46), a truthy (nonzero) version selects the single entry
`versions_statuses[requested_version]` and a falsy (zero) one iterates
every entry of `versions_statuses` (lines 49-56). -/
def exitOf (wms : String → String → String) (models : Models)
    (model_name : String) (requested_version : ReqVer) : PExit :=
  if check_availability_of_requested_status models requested_version
      model_name = false then
    PExit.done falcon.HTTP_NOT_FOUND
      (wrongSpecBody wms model_name requested_version)
  else
    match pyToInt requested_version, alookup models model_name with
    | some v, some m =>
      if v ≠ 0 then
        match alookup m.versions_statuses v with
        | some vs => PExit.done falcon.HTTP_200 (RespBody.statusBody [vs])
        | none => PExit.raised "KeyError"
      else
        PExit.done falcon.HTTP_200
          (RespBody.statusBody (m.versions_statuses.map Prod.snd))
    | _, _ => PExit.raised "ValueError"

/-- Embedding of `GetModelStatus.on_get`: the handler only performs the
availability check — it touches no engine on any path, so its event trace
is the same on every branch. -/
def on_get (wms : String → String → String) (models : Models)
    (model_name : String) (requested_version : ReqVer) :
    PExit × List Event :=
  (exitOf wms models model_name requested_version, [Event.resolve])

end GetModelStatus

namespace GetModelMetadata

/-- Embedding of `GetModelMetadata.on_get` (rest_service.py lines 69-108).
On a valid model spec the handler acquires the engine, reads its
metadata descriptors, builds the response (signature map packed under the
sole key `serving_default`, `model_spec.name` and
`model_spec.version.value` set), releases the engine and only then
serializes with `MessageToJson`. -/
def on_get (wms : String → String → String) (models : Models)
    (model_name : String) (requested_version : ReqVer) :
    PExit × List Event :=
  match check_availability_of_requested_model models model_name
      requested_version with
  | (false, _) =>
    (PExit.done falcon.HTTP_NOT_FOUND
      (wrongSpecBody wms model_name requested_version), [Event.resolve])
  | (true, version) =>
    (PExit.done falcon.HTTP_200
      (RespBody.metadataBody
        { signature_def_keys := ["serving_default"],
          model_spec_name := model_name,
          model_spec_version := version }),
     [Event.resolve, Event.acquire model_name version, Event.readMetadata,
      Event.release model_name version, Event.serialize])

end GetModelMetadata

namespace Predict

/-- Embedding of `Predict.on_post` (rest_service.py lines 116-197).
The request body arrives already parsed (`req.media`); the outcomes of the
external calls `prepare_input_data` and `engine.infer` are inputs of the
embedding.  The source code in order: availability check (404 on
failure), dict check (400 `Invalid JSON in request body`), input-format
check (400 `Invalid inputs in request body`), `prepare_input_data`
problem check (its own code and message), then `in_use.acquire()`, the
`infer` call inside `try`, and `in_use.release()` — on the success path
after `infer` returns, and in the `except ValueError` branch before the
400 `Malformed input data` response; any other exception class from
`infer` propagates out of the handler without a release. -/
def on_post (wms : String → String → String) (models : Models)
    (model_name : String) (requested_version : ReqVer) (body : Body)
    (prep : PrepareOutcome) (inferRun : InferOutcome) :
    PExit × List Event :=
  match check_availability_of_requested_model models model_name
      requested_version with
  | (false, _) =>
    (PExit.done falcon.HTTP_NOT_FOUND
      (wrongSpecBody wms model_name requested_version), [Event.resolve])
  | (true, version) =>
    match alookup models model_name with
    | none => (PExit.raised "KeyError", [Event.resolve])
    | some m =>
      match body with
      | .nondict _ =>
        (PExit.done falcon.HTTP_400
          (RespBody.jsonBody
            (Body.dict [("error", JVal.jstr "Invalid JSON in request body")])),
         [Event.resolve])
      | .dict fields =>
        if get_input_format (Body.dict fields)
            ((alookup m.engines version).getD default).input_key_names =
            INVALID_FORMAT then
          (PExit.done falcon.HTTP_400
            (RespBody.jsonBody
              (Body.dict
                [("error", JVal.jstr "Invalid inputs in request body")])),
           [Event.resolve])
        else
          match prep with
          | .problem errMsg code =>
            (PExit.done code
              (RespBody.jsonBody (Body.dict [("error", JVal.jstr errMsg)])),
             [Event.resolve])
          | .ok _batch =>
            match inferRun with
            | .valueError _msg =>
              (PExit.done falcon.HTTP_400
                (RespBody.jsonBody
                  (Body.dict [("error", JVal.jstr "Malformed input data")])),
               [Event.resolve, Event.acquire model_name version,
                Event.inferCall model_name version,
                Event.release model_name version])
            | .otherError exc =>
              (PExit.raised exc,
               [Event.resolve, Event.acquire model_name version,
                Event.inferCall model_name version])
            | .ok output =>
              (PExit.done falcon.HTTP_200
                (RespBody.jsonBody
                  (prepare_json_response
                    (OUTPUT_REPRESENTATION
                      (get_input_format (Body.dict fields)
                        ((alookup m.engines version).getD
                          default).input_key_names))
                    output
                    ((alookup m.engines version).getD
                      default).model_keys_outputs)),
               [Event.resolve, Event.acquire model_name version,
                Event.inferCall model_name version,
                Event.release model_name version])

end Predict

/-- The four validation phases of `Predict.on_post` that precede
`in_use.acquire()`, in source order: the model/version availability
check, the dict check on the body, the input-format discrimination, and
the `prepare_input_data` problem flag.  True iff all of them pass. -/
def predictValidationsPass (models : Models) (name : String) (rv : ReqVer)
    (body : Body) (prep : PrepareOutcome) : Bool :=
  match resolveVersion models name rv with
  | none => false
  | some v =>
    match alookup models name with
    | none => false
    | some m =>
      match body with
      | .nondict _ => false
      | .dict fields =>
        if get_input_format (Body.dict fields)
            ((alookup m.engines v).getD default).input_key_names =
            INVALID_FORMAT then false
        else
          match prep with
          | .problem _ _ => false
          | .ok _ => true

namespace Fixtures

/-- A concrete stand-in for the `WRONG_MODEL_SPEC.format` template used to
instantiate witnesses; the theorems hold for every template. -/
def wmsS : String → String → String :=
  fun n v => "Servable not found for request: " ++ n ++ " version " ++ v

def vsAvail (v : Nat) : VersionStatus :=
  { version := v, state := VersionState.AVAILABLE, error_code := 0,
    error_message := "OK" }

def vsEnd (v : Nat) : VersionStatus :=
  { version := v, state := VersionState.END, error_code := 0,
    error_message := "OK" }

def engS : Engine :=
  { input_key_names := ["input"],
    model_keys_outputs := [("resnet_v1_50/predictions/Reshape_1", "out")] }

def modelS : TfModel :=
  { versions_statuses := [(1, vsAvail 1), (2, vsEnd 2), (3, vsAvail 3)],
    engines := [(1, engS), (3, engS)] }

def modelsS : Models := [("resnet", modelS)]

def bodyRow : Body := Body.dict [("instances", JVal.jpayload [("input", 7)])]

def bodyCol : Body := Body.dict [("inputs", JVal.jpayload [("input", 7)])]

def bodyBad : Body := Body.dict [("foo", JVal.jstr "x")]

def bodyList : Body := Body.nondict "list"

end Fixtures

theorem check_model_of_resolve_none {models : Models} {name : String}
    {rv : ReqVer} (h : resolveVersion models name rv = none) :
    check_availability_of_requested_model models name rv = (false, 0) := by
  unfold check_availability_of_requested_model
  rw [h]

theorem check_model_of_resolve_some {models : Models} {name : String}
    {rv : ReqVer} {v : Nat} (h : resolveVersion models name rv = some v) :
    check_availability_of_requested_model models name rv = (true, v) := by
  unfold check_availability_of_requested_model
  rw [h]

theorem resolve_some_alookup {models : Models} {name : String}
    {rv : ReqVer} {v : Nat} (h : resolveVersion models name rv = some v) :
    ∃ m, alookup models name = some m := by
  unfold resolveVersion at h
  cases hm : alookup models name with
  | none => rw [hm] at h; exact absurd h (by simp)
  | some m => exact ⟨m, rfl⟩

theorem status_exit_404_iff (wms : String → String → String)
    (models : Models) (name : String) (rv : ReqVer) :
    (GetModelStatus.exitOf wms models name rv =
      PExit.done falcon.HTTP_NOT_FOUND (wrongSpecBody wms name rv)) ↔
    check_availability_of_requested_status models rv name = false := by
  unfold GetModelStatus.exitOf
  by_cases hc : check_availability_of_requested_status models rv name = false
  · rw [if_pos hc]
    simp [hc]
  · rw [if_neg hc]
    refine ⟨fun hcontra => ?_, fun h => absurd h hc⟩
    exfalso
    cases hp : pyToInt rv with
    | none =>
      cases hmm : alookup models name with
      | none =>
        simp only [hp, hmm] at hcontra
        exact PExit.noConfusion hcontra
      | some m =>
        simp only [hp, hmm] at hcontra
        exact PExit.noConfusion hcontra
    | some v =>
      cases hmm : alookup models name with
      | none =>
        simp only [hp, hmm] at hcontra
        exact PExit.noConfusion hcontra
      | some m =>
        simp only [hp, hmm] at hcontra
        by_cases h0 : v = 0
        · rw [if_neg (not_not_intro h0)] at hcontra
          injection hcontra with hst hbd
          exact absurd hst (by decide)
        · rw [if_pos h0] at hcontra
          cases hr : alookup m.versions_statuses v with
          | none =>
            rw [hr] at hcontra
            exact PExit.noConfusion hcontra
          | some vs =>
            rw [hr] at hcontra
            injection hcontra with hst hbd
            exact absurd hst (by decide)

theorem status_check_false_char (models : Models) (name : String)
    (rv : ReqVer) (v : Nat) (hv : pyToInt rv = some v) :
    (check_availability_of_requested_status models rv name = false) ↔
    (alookup models name = none ∨
      (v ≠ 0 ∧ ∀ m, alookup models name = some m →
        alookup m.versions_statuses v = none)) := by
  unfold check_availability_of_requested_status
  cases hm : alookup models name with
  | none => simp
  | some m =>
    simp only [hv]
    by_cases h0 : v = 0
    · subst h0
      simp
    · cases hr : alookup m.versions_statuses v with
      | none => simp [h0, hr]
      | some vs => simp [h0, hr]

/-- C1: the release obligation is violated on one exit path.  At this
concrete Predict request the model resolves, the body is valid, the
deserialization succeeds, and `infer` raises an exception that is not a
`ValueError` (an INTERNAL runtime failure); the handler lets it propagate
after `in_use.acquire()` without ever calling `in_use.release()`, so the
in-use counter of the engine ends one above its pre-call value. -/
theorem predict_release_missing_on_non_value_error :
    Predict.on_post Fixtures.wmsS Fixtures.modelsS "resnet"
      (ReqVer.strV "1") Fixtures.bodyRow (PrepareOutcome.ok 1)
      (InferOutcome.otherError "RuntimeError") =
      (PExit.raised "RuntimeError",
       [Event.resolve, Event.acquire "resnet" 1,
        Event.inferCall "resnet" 1]) ∧
    applyTrace 0 (Predict.on_post Fixtures.wmsS Fixtures.modelsS "resnet"
      (ReqVer.strV "1") Fixtures.bodyRow (PrepareOutcome.ok 1)
      (InferOutcome.otherError "RuntimeError")).2 = 1 := by
  decide

/-- C2: a Predict request naming an unknown model or a version with no
available record (the spec-modelled availability check resolves to
nothing) is answered with HTTP 404 and a JSON body whose single key is
`error`, and the handler performs no engine acquisition and no `infer`
call. -/
theorem predict_unknown_model_or_version_404
    (wms : String → String → String) (models : Models)
    (model_name : String) (rv : ReqVer) (body : Body)
    (prep : PrepareOutcome) (inferRun : InferOutcome)
    (h : resolveVersion models model_name rv = none) :
    Predict.on_post wms models model_name rv body prep inferRun =
      (PExit.done falcon.HTTP_NOT_FOUND
        (RespBody.jsonBody
          (Body.dict [("error", JVal.jstr (wms model_name (pyStr rv)))])),
       [Event.resolve]) ∧
    acquireCount
      (Predict.on_post wms models model_name rv body prep inferRun).2 = 0 ∧
    inferCallCount
      (Predict.on_post wms models model_name rv body prep inferRun).2 = 0 := by
  have hc := check_model_of_resolve_none h
  unfold Predict.on_post
  rw [hc]
  exact ⟨rfl, rfl, rfl⟩

/-- Witness for C2 at the concrete unknown model name `nothere`. -/
theorem predict_unknown_model_or_version_404_witness :
    acquireCount (Predict.on_post Fixtures.wmsS Fixtures.modelsS "nothere"
      (ReqVer.intV 0) Fixtures.bodyRow (PrepareOutcome.ok 1)
      (InferOutcome.ok [("o", 5)])).2 = 0 :=
  (predict_unknown_model_or_version_404 Fixtures.wmsS Fixtures.modelsS
    "nothere" (ReqVer.intV 0) Fixtures.bodyRow (PrepareOutcome.ok 1)
    (InferOutcome.ok [("o", 5)]) (by decide)).2.1

/-- C5: GetModelMetadata on a resolvable (model, version) performs, in
order, the availability resolution, `in_use.acquire()`, the metadata
read, `in_use.release()`, and only then the response serialization; the
response packs the signature map under the sole key `serving_default`,
sets `model_spec.name` to the requested model name and
`model_spec.version.value` to the resolved version.  When no available
version matches, it answers 404 instead. -/
theorem get_model_metadata_spec (wms : String → String → String)
    (models : Models) (name : String) (rv : ReqVer) :
    (∀ v : Nat, resolveVersion models name rv = some v →
      GetModelMetadata.on_get wms models name rv =
        (PExit.done falcon.HTTP_200
          (RespBody.metadataBody
            { signature_def_keys := ["serving_default"],
              model_spec_name := name, model_spec_version := v }),
         [Event.resolve, Event.acquire name v, Event.readMetadata,
          Event.release name v, Event.serialize])) ∧
    (resolveVersion models name rv = none →
      GetModelMetadata.on_get wms models name rv =
        (PExit.done falcon.HTTP_NOT_FOUND (wrongSpecBody wms name rv),
         [Event.resolve])) := by
  constructor
  · intro v hv
    unfold GetModelMetadata.on_get
    rw [check_model_of_resolve_some hv]
  · intro hn
    unfold GetModelMetadata.on_get
    rw [check_model_of_resolve_none hn]

/-- Witness for C5: metadata for the latest version of the fixture model
resolves to version 3 and produces the ordered trace. -/
theorem get_model_metadata_spec_witness :
    GetModelMetadata.on_get Fixtures.wmsS Fixtures.modelsS "resnet"
      (ReqVer.intV 0) =
      (PExit.done falcon.HTTP_200
        (RespBody.metadataBody
          { signature_def_keys := ["serving_default"],
            model_spec_name := "resnet", model_spec_version := 3 }),
       [Event.resolve, Event.acquire "resnet" 3, Event.readMetadata,
        Event.release "resnet" 3, Event.serialize]) :=
  (get_model_metadata_spec Fixtures.wmsS Fixtures.modelsS "resnet"
    (ReqVer.intV 0)).1 3 (by decide)

/-- C9: whenever a handler answers NOT_FOUND for an unknown model or
version, the body is the same in all three handlers: a JSON object with
the single key `error` holding the WRONG_MODEL_SPEC template (`wms`)
interpolated with the requested model name and the requested version. -/
theorem not_found_body_identical_across_handlers
    (wms : String → String → String) (models : Models)
    (model_name : String) (rv : ReqVer) (body : Body)
    (prep : PrepareOutcome) (inferRun : InferOutcome) :
    (check_availability_of_requested_status models rv model_name = false →
      (GetModelStatus.on_get wms models model_name rv).1 =
        PExit.done falcon.HTTP_NOT_FOUND
          (RespBody.jsonBody (Body.dict
            [("error", JVal.jstr (wms model_name (pyStr rv)))]))) ∧
    (resolveVersion models model_name rv = none →
      (GetModelMetadata.on_get wms models model_name rv).1 =
        PExit.done falcon.HTTP_NOT_FOUND
          (RespBody.jsonBody (Body.dict
            [("error", JVal.jstr (wms model_name (pyStr rv)))]))) ∧
    (resolveVersion models model_name rv = none →
      (Predict.on_post wms models model_name rv body prep inferRun).1 =
        PExit.done falcon.HTTP_NOT_FOUND
          (RespBody.jsonBody (Body.dict
            [("error", JVal.jstr (wms model_name (pyStr rv)))]))) := by
  refine ⟨fun hs => ?_, fun hm => ?_, fun hp => ?_⟩
  · unfold GetModelStatus.on_get GetModelStatus.exitOf
    rw [if_pos hs]
    rfl
  · unfold GetModelMetadata.on_get
    rw [check_model_of_resolve_none hm]
    rfl
  · unfold Predict.on_post
    rw [check_model_of_resolve_none hp]
    rfl

/-- Witness for C9 at the concrete unknown model `nothere`, requested
version `9`: all three handlers return the same 404 body. -/
theorem not_found_body_identical_across_handlers_witness :
    (GetModelStatus.on_get Fixtures.wmsS Fixtures.modelsS "nothere"
      (ReqVer.strV "9")).1 =
      PExit.done falcon.HTTP_NOT_FOUND
        (RespBody.jsonBody (Body.dict
          [("error",
            JVal.jstr (Fixtures.wmsS "nothere" (pyStr (ReqVer.strV "9"))))])) ∧
    (GetModelMetadata.on_get Fixtures.wmsS Fixtures.modelsS "nothere"
      (ReqVer.strV "9")).1 =
      PExit.done falcon.HTTP_NOT_FOUND
        (RespBody.jsonBody (Body.dict
          [("error",
            JVal.jstr (Fixtures.wmsS "nothere" (pyStr (ReqVer.strV "9"))))])) ∧
    (Predict.on_post Fixtures.wmsS Fixtures.modelsS "nothere"
      (ReqVer.strV "9") Fixtures.bodyRow (PrepareOutcome.ok 1)
      (InferOutcome.ok [("o", 5)])).1 =
      PExit.done falcon.HTTP_NOT_FOUND
        (RespBody.jsonBody (Body.dict
          [("error",
            JVal.jstr (Fixtures.wmsS "nothere" (pyStr (ReqVer.strV "9"))))])) :=
  ⟨(not_found_body_identical_across_handlers Fixtures.wmsS Fixtures.modelsS
      "nothere" (ReqVer.strV "9") Fixtures.bodyRow (PrepareOutcome.ok 1)
      (InferOutcome.ok [("o", 5)])).1 (by decide),
   (not_found_body_identical_across_handlers Fixtures.wmsS Fixtures.modelsS
      "nothere" (ReqVer.strV "9") Fixtures.bodyRow (PrepareOutcome.ok 1)
      (InferOutcome.ok [("o", 5)])).2.1 (by decide),
   (not_found_body_identical_across_handlers Fixtures.wmsS Fixtures.modelsS
      "nothere" (ReqVer.strV "9") Fixtures.bodyRow (PrepareOutcome.ok 1)
      (InferOutcome.ok [("o", 5)])).2.2 (by decide)⟩

/-- C10: for a known model, a GetModelStatus request naming version 0 in
the path behaves exactly like the request with no version at all, because
`int(requested_version)` is falsy: the handler returns the status entries
of every version in the version map of the model, not an entry for version 0
only. -/
theorem status_version_zero_lists_all_versions
    (wms : String → String → String) (models : Models) (name : String)
    (m : TfModel) (hm : alookup models name = some m) :
    GetModelStatus.on_get wms models name (ReqVer.strV "0") =
      GetModelStatus.on_get wms models name (ReqVer.intV 0) ∧
    (GetModelStatus.on_get wms models name (ReqVer.strV "0")).1 =
      PExit.done falcon.HTTP_200
        (RespBody.statusBody (m.versions_statuses.map Prod.snd)) := by
  have hchk : ∀ rv0 : ReqVer, pyToInt rv0 = some 0 →
      check_availability_of_requested_status models rv0 name = true := by
    intro rv0 h0
    unfold check_availability_of_requested_status
    rw [hm, h0]
    rfl
  have h1 := hchk (ReqVer.strV "0") rfl
  have h2 := hchk (ReqVer.intV 0) rfl
  constructor
  · unfold GetModelStatus.on_get GetModelStatus.exitOf
    rw [if_neg (by simp [h1]), if_neg (by simp [h2]), hm]
    rfl
  · unfold GetModelStatus.on_get GetModelStatus.exitOf
    rw [if_neg (by simp [h1]), hm]
    rfl

/-- C3: for a valid Predict request — resolvable model and version, dict
body, recognized input format, successful deserialization and successful
inference — the response is 200 and its single top-level key mirrors the
input format: `predictions` for the row format and `outputs` for the
column format. -/
theorem predict_response_mirrors_input_format
    (wms : String → String → String) (models : Models) (name : String)
    (rv : ReqVer) (fields : List (String × JVal)) (batch : Nat)
    (output : List (String × Int)) (m : TfModel) (v : Nat)
    (fmt : InputFormat)
    (hm : alookup models name = some m)
    (hv : resolveVersion models name rv = some v)
    (hfmt : get_input_format (Body.dict fields)
      ((alookup m.engines v).getD default).input_key_names = fmt)
    (hinv : fmt ≠ INVALID_FORMAT) :
    (Predict.on_post wms models name rv (Body.dict fields)
        (PrepareOutcome.ok batch) (InferOutcome.ok output)).1 =
      PExit.done falcon.HTTP_200
        (RespBody.jsonBody
          (Body.dict [(OUTPUT_REPRESENTATION fmt, JVal.jpayload output)])) ∧
    (fmt = InputFormat.rowFormat →
      OUTPUT_REPRESENTATION fmt = "predictions") ∧
    (fmt = InputFormat.columnFormat →
      OUTPUT_REPRESENTATION fmt = "outputs") := by
  refine ⟨?_, fun h => by rw [h]; rfl, fun h => by rw [h]; rfl⟩
  unfold Predict.on_post
  rw [check_model_of_resolve_some hv]
  simp only [hm]
  rw [hfmt, if_neg hinv]
  rfl

/-- Witness for C3: a row-format request to the fixture model, version 1,
answers under the key `predictions`. -/
theorem predict_response_mirrors_input_format_witness :
    (Predict.on_post Fixtures.wmsS Fixtures.modelsS "resnet"
        (ReqVer.strV "1")
        (Body.dict [("instances", JVal.jpayload [("input", 7)])])
        (PrepareOutcome.ok 1) (InferOutcome.ok [("o", 5)])).1 =
      PExit.done falcon.HTTP_200
        (RespBody.jsonBody
          (Body.dict [(OUTPUT_REPRESENTATION InputFormat.rowFormat,
            JVal.jpayload [("o", 5)])])) :=
  (predict_response_mirrors_input_format Fixtures.wmsS Fixtures.modelsS
    "resnet" (ReqVer.strV "1") [("instances", JVal.jpayload [("input", 7)])]
    1 [("o", 5)] Fixtures.modelS 1 InputFormat.rowFormat (by decide)
    (by decide) (by decide) (by decide)).1

/-- C6 counterexample: at this concrete Predict request the inference
runtime call fails, but with an exception that is not a `ValueError`; the
handler does not return the 400 `Malformed input data` response — the
exception propagates — and no release happens before the handler exits. -/
theorem predict_infer_failure_not_always_400 :
    (Predict.on_post Fixtures.wmsS Fixtures.modelsS "resnet"
      (ReqVer.strV "3") Fixtures.bodyCol (PrepareOutcome.ok 1)
      (InferOutcome.otherError "TypeError")).1 =
      PExit.raised "TypeError" ∧
    (Predict.on_post Fixtures.wmsS Fixtures.modelsS "resnet"
      (ReqVer.strV "3") Fixtures.bodyCol (PrepareOutcome.ok 1)
      (InferOutcome.otherError "TypeError")).1 ≠
      PExit.done falcon.HTTP_400
        (RespBody.jsonBody
          (Body.dict [("error", JVal.jstr "Malformed input data")])) ∧
    releaseCount (Predict.on_post Fixtures.wmsS Fixtures.modelsS "resnet"
      (ReqVer.strV "3") Fixtures.bodyCol (PrepareOutcome.ok 1)
      (InferOutcome.otherError "TypeError")).2 = 0 := by
  decide

/-- C6 amended: for every Predict request whose inference call raises a
`ValueError` (the INVALID_INPUT failure of the runtime), the handler
returns HTTP 400 with body exactly the JSON object `error: Malformed
input data`, and the release is performed before the response is
returned (it precedes the end of the trace). -/
theorem predict_value_error_400_and_release
    (wms : String → String → String) (models : Models) (name : String)
    (rv : ReqVer) (fields : List (String × JVal)) (batch : Nat)
    (msg : String) (m : TfModel) (v : Nat)
    (hm : alookup models name = some m)
    (hv : resolveVersion models name rv = some v)
    (hinv : get_input_format (Body.dict fields)
      ((alookup m.engines v).getD default).input_key_names ≠
      INVALID_FORMAT) :
    Predict.on_post wms models name rv (Body.dict fields)
        (PrepareOutcome.ok batch) (InferOutcome.valueError msg) =
      (PExit.done falcon.HTTP_400
        (RespBody.jsonBody
          (Body.dict [("error", JVal.jstr "Malformed input data")])),
       [Event.resolve, Event.acquire name v, Event.inferCall name v,
        Event.release name v]) := by
  unfold Predict.on_post
  rw [check_model_of_resolve_some hv]
  simp only [hm]
  rw [if_neg hinv]

/-- Witness for the amended C6 at a concrete `ValueError` from infer. -/
theorem predict_value_error_400_and_release_witness :
    Predict.on_post Fixtures.wmsS Fixtures.modelsS "resnet"
        (ReqVer.strV "1")
        (Body.dict [("instances", JVal.jpayload [("input", 7)])])
        (PrepareOutcome.ok 1) (InferOutcome.valueError "shape mismatch") =
      (PExit.done falcon.HTTP_400
        (RespBody.jsonBody
          (Body.dict [("error", JVal.jstr "Malformed input data")])),
       [Event.resolve, Event.acquire "resnet" 1, Event.inferCall "resnet" 1,
        Event.release "resnet" 1]) :=
  predict_value_error_400_and_release Fixtures.wmsS Fixtures.modelsS
    "resnet" (ReqVer.strV "1") [("instances", JVal.jpayload [("input", 7)])]
    1 "shape mismatch" Fixtures.modelS 1 (by decide) (by decide) (by decide)

/-- C7: once the model and version resolve, a Predict request whose
parsed body is not a dict is answered 400 with exactly
`error: Invalid JSON in request body`, and one whose body is a dict with
neither an `instances` key (row format) nor an `inputs` key (column
format) is answered 400 with exactly `error: Invalid inputs in request
body`. -/
theorem predict_body_validation_responses
    (wms : String → String → String) (models : Models) (name : String)
    (rv : ReqVer) (prep : PrepareOutcome) (inferRun : InferOutcome)
    (m : TfModel) (v : Nat)
    (hm : alookup models name = some m)
    (hv : resolveVersion models name rv = some v) :
    (∀ tag : String,
      (Predict.on_post wms models name rv (Body.nondict tag) prep
        inferRun).1 =
        PExit.done falcon.HTTP_400
          (RespBody.jsonBody
            (Body.dict
              [("error", JVal.jstr "Invalid JSON in request body")]))) ∧
    (∀ fields : List (String × JVal),
      containsKey fields "instances" = false →
      containsKey fields "inputs" = false →
      (Predict.on_post wms models name rv (Body.dict fields) prep
        inferRun).1 =
        PExit.done falcon.HTTP_400
          (RespBody.jsonBody
            (Body.dict
              [("error", JVal.jstr "Invalid inputs in request body")]))) := by
  constructor
  · intro tag
    unfold Predict.on_post
    rw [check_model_of_resolve_some hv]
    simp only [hm]
  · intro fields h1 h2
    have hf : get_input_format (Body.dict fields)
        ((alookup m.engines v).getD default).input_key_names =
        INVALID_FORMAT := by
      unfold get_input_format
      simp only [h1, h2]
      rfl
    unfold Predict.on_post
    rw [check_model_of_resolve_some hv]
    simp only [hm]
    rw [if_pos hf]

/-- Witness for C7 at a concrete non-dict body on the fixture model. -/
theorem predict_body_validation_responses_witness :
    (Predict.on_post Fixtures.wmsS Fixtures.modelsS "resnet"
      (ReqVer.strV "1") (Body.nondict "list") (PrepareOutcome.ok 1)
      (InferOutcome.ok [("o", 5)])).1 =
      PExit.done falcon.HTTP_400
        (RespBody.jsonBody
          (Body.dict [("error", JVal.jstr "Invalid JSON in request body")])) :=
  (predict_body_validation_responses Fixtures.wmsS Fixtures.modelsS
    "resnet" (ReqVer.strV "1") (PrepareOutcome.ok 1)
    (InferOutcome.ok [("o", 5)]) Fixtures.modelS 1 (by decide)
    (by decide)).1 "list"

/-- C8: every validation phase of Predict (availability check, dict
check, input-format check, deserialization problem check) precedes
`in_use.acquire()`: whenever any of them fails, the whole trace of the handler
is the bare availability check, so the in-use counter is never touched
(no acquire, no release, counter unchanged). -/
theorem predict_validation_error_leaves_counter_untouched
    (wms : String → String → String) (models : Models) (name : String)
    (rv : ReqVer) (body : Body) (prep : PrepareOutcome)
    (inferRun : InferOutcome)
    (h : predictValidationsPass models name rv body prep = false) :
    (Predict.on_post wms models name rv body prep inferRun).2 =
      [Event.resolve] ∧
    acquireCount (Predict.on_post wms models name rv body prep
      inferRun).2 = 0 ∧
    releaseCount (Predict.on_post wms models name rv body prep
      inferRun).2 = 0 ∧
    ∀ c : Int, applyTrace c (Predict.on_post wms models name rv body prep
      inferRun).2 = c := by
  have htr : (Predict.on_post wms models name rv body prep inferRun).2 =
      [Event.resolve] := by
    unfold predictValidationsPass at h
    cases hv : resolveVersion models name rv with
    | none =>
      unfold Predict.on_post
      rw [check_model_of_resolve_none hv]
    | some v =>
      rw [hv] at h
      simp only [] at h
      cases hm : alookup models name with
      | none =>
        unfold Predict.on_post
        rw [check_model_of_resolve_some hv]
        simp only [hm]
      | some m =>
        rw [hm] at h
        simp only [] at h
        cases body with
        | nondict tag =>
          unfold Predict.on_post
          rw [check_model_of_resolve_some hv]
          simp only [hm]
        | dict fields =>
          simp only [] at h
          unfold Predict.on_post
          rw [check_model_of_resolve_some hv]
          simp only [hm]
          by_cases hf : get_input_format (Body.dict fields)
              ((alookup m.engines v).getD default).input_key_names =
              INVALID_FORMAT
          · rw [if_pos hf]
          · rw [if_neg hf] at h
            rw [if_neg hf]
            cases prep with
            | problem msg code => rfl
            | ok b => simp at h
  refine ⟨htr, ?_, ?_, fun c => ?_⟩ <;> rw [htr] <;> rfl

/-- Witness for C8 at a concrete dict body with an unrecognized key. -/
theorem predict_validation_error_leaves_counter_untouched_witness :
    acquireCount (Predict.on_post Fixtures.wmsS Fixtures.modelsS "resnet"
      (ReqVer.strV "1") Fixtures.bodyBad (PrepareOutcome.ok 1)
      (InferOutcome.ok [("o", 5)])).2 = 0 :=
  (predict_validation_error_leaves_counter_untouched Fixtures.wmsS
    Fixtures.modelsS "resnet" (ReqVer.strV "1") Fixtures.bodyBad
    (PrepareOutcome.ok 1) (InferOutcome.ok [("o", 5)]) (by decide)).2.1

/-- C4: GetModelStatus never acquires an engine (its trace is the bare
availability check on every path); with a parseable requested version it
answers 404 exactly when the model name is unknown or a nonzero requested
version has no record; otherwise it answers 200 — with the single
status entry of the requested version, or with the entries of every version in
the version map when the requested version is 0 (no specific version
requested). -/
theorem get_model_status_spec (wms : String → String → String)
    (models : Models) (name : String) (rv : ReqVer) (v : Nat)
    (hv : pyToInt rv = some v) :
    (∀ rv0 : ReqVer,
      acquireCount (GetModelStatus.on_get wms models name rv0).2 = 0) ∧
    ((GetModelStatus.on_get wms models name rv).1 =
        PExit.done falcon.HTTP_NOT_FOUND (wrongSpecBody wms name rv) ↔
      (alookup models name = none ∨
        (v ≠ 0 ∧ ∀ m, alookup models name = some m →
          alookup m.versions_statuses v = none))) ∧
    (∀ m, alookup models name = some m → v ≠ 0 →
      ∀ vs, alookup m.versions_statuses v = some vs →
      (GetModelStatus.on_get wms models name rv).1 =
        PExit.done falcon.HTTP_200 (RespBody.statusBody [vs])) ∧
    (∀ m, alookup models name = some m → v = 0 →
      (GetModelStatus.on_get wms models name rv).1 =
        PExit.done falcon.HTTP_200
          (RespBody.statusBody (m.versions_statuses.map Prod.snd))) := by
  refine ⟨fun rv0 => rfl, ?_, ?_, ?_⟩
  · exact Iff.trans (status_exit_404_iff wms models name rv)
      (status_check_false_char models name rv v hv)
  · intro m hm hne vs hr
    have hc : check_availability_of_requested_status models rv name =
        true := by
      unfold check_availability_of_requested_status
      rw [hm]
      simp [hv, hr]
    unfold GetModelStatus.on_get GetModelStatus.exitOf
    rw [if_neg (by simp [hc])]
    simp only [hv, hm]
    rw [if_pos hne, hr]
  · intro m hm h0
    have hc : check_availability_of_requested_status models rv name =
        true := by
      unfold check_availability_of_requested_status
      rw [hm]
      simp [hv, h0]
    unfold GetModelStatus.on_get GetModelStatus.exitOf
    rw [if_neg (by simp [hc])]
    simp only [hv, hm]
    rw [if_neg (not_not_intro h0)]

/-- Witness for C4: version 2 of the fixture model exists (in state END),
so its status request answers 200 with exactly that entry. -/
theorem get_model_status_spec_witness :
    (GetModelStatus.on_get Fixtures.wmsS Fixtures.modelsS "resnet"
      (ReqVer.strV "2")).1 =
      PExit.done falcon.HTTP_200
        (RespBody.statusBody [Fixtures.vsEnd 2]) :=
  (get_model_status_spec Fixtures.wmsS Fixtures.modelsS "resnet"
    (ReqVer.strV "2") 2 (by decide)).2.2.1 Fixtures.modelS (by decide)
    (by decide) (Fixtures.vsEnd 2) (by decide)

/-- Witness for C10: version `0` of the fixture model lists all three
version records. -/
theorem status_version_zero_lists_all_versions_witness :
    (GetModelStatus.on_get Fixtures.wmsS Fixtures.modelsS "resnet"
      (ReqVer.strV "0")).1 =
      PExit.done falcon.HTTP_200
        (RespBody.statusBody
          (Fixtures.modelS.versions_statuses.map Prod.snd)) :=
  (status_version_zero_lists_all_versions Fixtures.wmsS Fixtures.modelsS
    "resnet" Fixtures.modelS (by decide)).2

end RestService
